import Mathlib

/-!
Verification of the signal-generation core of a forex trading bot
(`sabelorobot.py`).  Python floats are modelled as rationals (`ℚ`);
a float NaN produced by an indicator warm-up is modelled as `none`
in an `Option ℚ`, so an indicator series (a numpy array) becomes a
`List (Option ℚ)`.  The external TA-Lib indicator routines are
parameters (`Talib`): the engine's logic does not depend on their
numeric content, only on the shape of their output.
-/

namespace SabeloRobot

/-- One OHLC candle, as built by `fetch_forex_data` (the `time` field is
an opaque timestamp; `open` is a Lean keyword, hence `open_price`). -/
structure Candle where
  time : ℤ
  open_price : ℚ
  high : ℚ
  low : ℚ
  close : ℚ
  volume : ℚ
deriving DecidableEq, Repr

/- The configuration constants of class `Config` that the engine reads;
`0.8` and `1.5` are the exact decimal literals of the source. -/
namespace Config

def RISK_REWARD_RATIO : ℚ := 15/10

def ATR_PERIOD : ℕ := 10

def ATR_SL_MULTIPLIER : ℚ := 8/10

def ATR_TP_MULTIPLIER : ℚ := ATR_SL_MULTIPLIER * RISK_REWARD_RATIO

def EMA_FAST : ℕ := 12

def EMA_SLOW : ℕ := 26

def RSI_PERIOD : ℕ := 14

def RSI_OVERBOUGHT : ℚ := 70

def RSI_OVERSOLD : ℚ := 30

def MACD_FAST : ℕ := 12

def MACD_SLOW : ℕ := 26

def MACD_SIGNAL : ℕ := 9

end Config

/-- The TA-Lib routines used by `calculate_indicators`, kept abstract:
each takes the input series (and periods) and returns an output array
whose entries are either a number or NaN (`none`). -/
structure Talib where
  EMA : List ℚ → ℕ → List (Option ℚ)
  RSI : List ℚ → ℕ → List (Option ℚ)
  MACD : List ℚ → ℕ → ℕ → ℕ → List (Option ℚ) × List (Option ℚ) × List (Option ℚ)
  ATR : List ℚ → List ℚ → List ℚ → ℕ → List (Option ℚ)
  BBANDS : List ℚ → ℕ → ℚ → ℚ → ℕ → List (Option ℚ) × List (Option ℚ) × List (Option ℚ)

/-- Backwards scan of `last_valid_value`: the last non-NaN entry of the
array, `none` if every entry is NaN (or the array is empty).  The Python
loop runs `i` from `len(arr)-1` down to `0` and returns `arr[i]` at the
first index whose entry is not NaN. -/
def lastNonNaN : List (Option ℚ) → Option ℚ
  | [] => none
  | x :: xs =>
    match lastNonNaN xs with
    | some v => some v
    | none => x

/-- `last_valid_value(arr)` from `calculate_indicators`: `None` when the
array is `None` or empty, otherwise the last non-NaN entry (`None` when
all entries are NaN). -/
def last_valid_value : Option (List (Option ℚ)) → Option ℚ
  | none => none
  | some arr => lastNonNaN arr

/-- The dictionary returned by `calculate_indicators`: every key holds
either a number or `None`. -/
structure Indicators where
  ema_fast : Option ℚ
  ema_slow : Option ℚ
  rsi : Option ℚ
  macd : Option ℚ
  macd_signal : Option ℚ
  macd_hist : Option ℚ
  atr : Option ℚ
  upper_bb : Option ℚ
  middle_bb : Option ℚ
  lower_bb : Option ℚ
  price : Option ℚ
deriving DecidableEq, Repr

/-- `calculate_indicators(candles)`: `None` for fewer than 50 candles,
otherwise the dictionary of last valid values of each TA-Lib series
(each series wrapped in `some` since TA-Lib returns an actual array). -/
def calculate_indicators (ta : Talib) (candles : List Candle) : Option Indicators :=
  if candles.length < 50 then none
  else
    let closes := candles.map (fun c => c.close)
    let highs := candles.map (fun c => c.high)
    let lows := candles.map (fun c => c.low)
    let ema_fast := ta.EMA closes Config.EMA_FAST
    let ema_slow := ta.EMA closes Config.EMA_SLOW
    let rsi := ta.RSI closes Config.RSI_PERIOD
    let macd3 := ta.MACD closes Config.MACD_FAST Config.MACD_SLOW Config.MACD_SIGNAL
    let atr := ta.ATR highs lows closes Config.ATR_PERIOD
    let bb3 := ta.BBANDS closes 20 2 2 0
    some {
      ema_fast := last_valid_value (some ema_fast)
      ema_slow := last_valid_value (some ema_slow)
      rsi := last_valid_value (some rsi)
      macd := last_valid_value (some macd3.1)
      macd_signal := last_valid_value (some macd3.2.1)
      macd_hist := last_valid_value (some macd3.2.2)
      atr := last_valid_value (some atr)
      upper_bb := last_valid_value (some bb3.1)
      middle_bb := last_valid_value (some bb3.2.1)
      lower_bb := last_valid_value (some bb3.2.2)
      price := closes.getLast?
    }

/-- An `Indicators` dictionary in which every value is present: what the
engine works with after its `any(v is None ...)` guard. -/
structure CompleteIndicators where
  ema_fast : ℚ
  ema_slow : ℚ
  rsi : ℚ
  macd : ℚ
  macd_signal : ℚ
  macd_hist : ℚ
  atr : ℚ
  upper_bb : ℚ
  middle_bb : ℚ
  lower_bb : ℚ
  price : ℚ
deriving DecidableEq, Repr

/-- The guard `any(v is None for v in indicators.values())`, packaged as
an extraction: `some` exactly when no value of the dictionary is `None`. -/
def complete_snapshot (d : Indicators) : Option CompleteIndicators :=
  match d.ema_fast, d.ema_slow, d.rsi, d.macd, d.macd_signal, d.macd_hist,
        d.atr, d.upper_bb, d.middle_bb, d.lower_bb, d.price with
  | some ef, some es, some r, some m, some ms, some mh,
    some a, some ub, some mb, some lb, some pr =>
    some ⟨ef, es, r, m, ms, mh, a, ub, mb, lb, pr⟩
  | _, _, _, _, _, _, _, _, _, _, _ => none

/-- The 5-tuple `(signal, strategy, price, tp_price, sl_price)` returned
by `generate_signal` and unpacked by its callers. -/
structure SignalDecision where
  direction : String
  strategy : String
  entry : ℚ
  tp_price : ℚ
  sl_price : ℚ
deriving DecidableEq, Repr

/-- Step 1 of the strategy logic, fast timeframe: the 15m EMA comparison
adds one bullish or one bearish vote (ties count as bearish, as the
source's `else` does). `s` is the running (bullish, bearish) pair. -/
def trend_votes_15m (indicators_15m : CompleteIndicators) (s : ℕ × ℕ) : ℕ × ℕ :=
  if indicators_15m.ema_fast > indicators_15m.ema_slow
  then (s.1 + 1, s.2) else (s.1, s.2 + 1)

/-- Step 1, slow timeframe: the 1h EMA comparison adds two votes
("higher weight for higher timeframe"). -/
def trend_votes_1h (indicators_1h : CompleteIndicators) (s : ℕ × ℕ) : ℕ × ℕ :=
  if indicators_1h.ema_fast > indicators_1h.ema_slow
  then (s.1 + 2, s.2) else (s.1, s.2 + 2)

/-- Step 2 on one timeframe: RSI below oversold adds a bullish vote,
above overbought a bearish vote, otherwise nothing. -/
def rsi_votes (ind : CompleteIndicators) (s : ℕ × ℕ) : ℕ × ℕ :=
  if ind.rsi < Config.RSI_OVERSOLD then (s.1 + 1, s.2)
  else if ind.rsi > Config.RSI_OVERBOUGHT then (s.1, s.2 + 1) else s

/-- Step 3 on one timeframe: positive MACD histogram with MACD above its
signal line adds a bullish vote, the symmetric negative condition a
bearish vote, otherwise nothing. -/
def macd_votes (ind : CompleteIndicators) (s : ℕ × ℕ) : ℕ × ℕ :=
  if ind.macd_hist > 0 ∧ ind.macd > ind.macd_signal then (s.1 + 1, s.2)
  else if ind.macd_hist < 0 ∧ ind.macd < ind.macd_signal then (s.1, s.2 + 1) else s

/-- Step 4, fast timeframe only: the live price below the lower
Bollinger band adds a bullish vote, above the upper band a bearish
vote, otherwise nothing. -/
def bb_votes (indicators_15m : CompleteIndicators) (current_price : ℚ)
    (s : ℕ × ℕ) : ℕ × ℕ :=
  if current_price < indicators_15m.lower_bb then (s.1 + 1, s.2)
  else if current_price > indicators_15m.upper_bb then (s.1, s.2 + 1) else s

/-- The confluence vote count of `generate_signal` (steps 1-4 of the
strategy logic), accumulated exactly as the source increments
`bullish_signals` / `bearish_signals`; the pair is (bullish, bearish). -/
def tally_votes (indicators_15m indicators_1h : CompleteIndicators)
    (current_price : ℚ) : ℕ × ℕ :=
  bb_votes indicators_15m current_price
    (macd_votes indicators_1h
      (macd_votes indicators_15m
        (rsi_votes indicators_1h
          (rsi_votes indicators_15m
            (trend_votes_1h indicators_1h
              (trend_votes_15m indicators_15m (0, 0)))))))

/-- `confidence = abs(bullish - bearish) / total * 100` with the explicit
`total == 0` guard of the source.  `abs` of the integer difference of the
two counters is `Int.natAbs`; the division is then exact (float in the
source, rational here). -/
def confidence_of (bullish_signals bearish_signals : ℕ) : ℚ :=
  let total_signals := bullish_signals + bearish_signals
  if total_signals = 0 then 0
  else (((bullish_signals : ℤ) - (bearish_signals : ℤ)).natAbs : ℚ)
    / (total_signals : ℚ) * 100

/-- Rationale string of the BUY branch.  The Python f-string renders the
numbers to 5/2/1 decimal places; here they are rendered exactly. -/
def buy_strategy (indicators_15m indicators_1h : CompleteIndicators)
    (confidence : ℚ) : String :=
  "Multi-timeframe BULLISH confluence\n15m EMA: " ++
    toString indicators_15m.ema_fast ++ " > " ++ toString indicators_15m.ema_slow ++
    "\n1h RSI: " ++ toString indicators_1h.rsi ++
    "\nMACD Hist: " ++ toString indicators_15m.macd_hist ++
    "\nConfidence: " ++ toString confidence ++ "%"

/-- Rationale string of the SELL branch. -/
def sell_strategy (indicators_15m indicators_1h : CompleteIndicators)
    (confidence : ℚ) : String :=
  "Multi-timeframe BEARISH confluence\n15m EMA: " ++
    toString indicators_15m.ema_fast ++ " < " ++ toString indicators_15m.ema_slow ++
    "\n1h RSI: " ++ toString indicators_1h.rsi ++
    "\nMACD Hist: " ++ toString indicators_15m.macd_hist ++
    "\nConfidence: " ++ toString confidence ++ "%"

/-- Rationale string of the HOLD branch. -/
def hold_strategy (indicators_15m : CompleteIndicators) : String :=
  "Market is consolidating\n15m RSI: " ++ toString indicators_15m.rsi ++
    "\nPrice near middle BB: " ++ toString indicators_15m.middle_bb

/-- The decision stage of `generate_signal` after all validation guards
have passed: vote tally, confidence, and the BUY/SELL/HOLD branches with
their ATR-based stop-loss / take-profit computation. -/
def signal_core (indicators_15m indicators_1h : CompleteIndicators)
    (current_price : ℚ) : SignalDecision :=
  let votes := tally_votes indicators_15m indicators_1h current_price
  let bullish_signals := votes.1
  let bearish_signals := votes.2
  let confidence := confidence_of bullish_signals bearish_signals
  if bullish_signals > bearish_signals ∧ confidence > 30 then
    let atr_value := indicators_15m.atr
    let sl_price := current_price - atr_value * Config.ATR_SL_MULTIPLIER
    let tp_price := current_price + atr_value * Config.ATR_TP_MULTIPLIER
    ⟨"BUY", buy_strategy indicators_15m indicators_1h confidence,
      current_price, tp_price, sl_price⟩
  else if bearish_signals > bullish_signals ∧ confidence > 30 then
    let atr_value := indicators_15m.atr
    let sl_price := current_price + atr_value * Config.ATR_SL_MULTIPLIER
    let tp_price := current_price - atr_value * Config.ATR_TP_MULTIPLIER
    ⟨"SELL", sell_strategy indicators_15m indicators_1h confidence,
      current_price, tp_price, sl_price⟩
  else
    ⟨"HOLD", hold_strategy indicators_15m,
      current_price, current_price, current_price⟩

/-- `generate_signal`, with its three effectful inputs made explicit:
the two candle fetches (an empty list is what `fetch_forex_data` returns
on failure) and the current price fetch (`none` on failure).  The guard
order is exactly the source's: empty candles, `None` snapshots, missing
price, `None` values inside a snapshot, then the decision stage. -/
def generate_signal (ta : Talib) (candles_15m candles_1h : List Candle)
    (fetched_price : Option ℚ) : SignalDecision :=
  if candles_15m.isEmpty || candles_1h.isEmpty then
    ⟨"ERROR", "Failed to fetch market data", 0, 0, 0⟩
  else
    match calculate_indicators ta candles_15m, calculate_indicators ta candles_1h with
    | none, _ => ⟨"ANALYZING", "Not enough data to calculate indicators", 0, 0, 0⟩
    | some _, none => ⟨"ANALYZING", "Not enough data to calculate indicators", 0, 0, 0⟩
    | some indicators_15m, some indicators_1h =>
      match fetched_price with
      | none => ⟨"ERROR", "Failed to fetch current price", 0, 0, 0⟩
      | some current_price =>
        match complete_snapshot indicators_15m, complete_snapshot indicators_1h with
        | some c15, some c1h => signal_core c15 c1h current_price
        | _, _ => ⟨"ANALYZING", "Calculating indicators...", current_price, 0, 0⟩

/-! ### Concrete fixtures used by witnesses and counterexamples -/

/-- A TA-Lib instantiation whose every routine returns an empty array
(the degenerate shape: no series ever stabilizes). -/
def trivialTalib : Talib :=
  ⟨fun _ _ => [], fun _ _ => [], fun _ _ _ _ => ([], [], []),
   fun _ _ _ _ => [], fun _ _ _ _ _ => ([], [], [])⟩

/-- A single flat candle. -/
def c0 : Candle := ⟨0, 1, 1, 1, 1, 0⟩

/-- Ten candles: a non-empty fetch result that is too short for indicators. -/
def candles10 : List Candle := List.replicate 10 c0

/-- Fifty candles: enough for `calculate_indicators` to return a dictionary. -/
def candles50 : List Candle := List.replicate 50 c0

/-- A complete fast-timeframe snapshot in which every vote is bullish at
price 50 (EMAs rising, RSI oversold, MACD positive, price below the
lower band). -/
def bull15 : CompleteIndicators := ⟨2, 1, 25, 1, 0, 1, 1, 200, 150, 100, 50⟩

/-- A complete slow-timeframe snapshot in which every vote is bullish. -/
def bull1h : CompleteIndicators := ⟨2, 1, 25, 1, 0, 1, 1, 200, 150, 100, 50⟩

/-- A complete fast-timeframe snapshot contributing 1 bullish trend vote
and 1 bullish RSI vote at price 50 (inside the bands, MACD flat). -/
def tie15 : CompleteIndicators := ⟨2, 1, 25, 0, 0, 0, 1, 100, 50, 0, 50⟩

/-- A complete slow-timeframe snapshot contributing 2 bearish trend
votes and nothing else: together with `tie15` the tally ties 2-2. -/
def tie1h : CompleteIndicators := ⟨1, 2, 50, 0, 0, 0, 1, 100, 50, 0, 50⟩

end SabeloRobot

namespace SabeloRobot

/-! ### Helper lemmas -/

/-- The backwards scan returns exactly the last defined entry of the
array: the last element of the sublist of defined values. -/
theorem lastNonNaN_eq_getLast (l : List (Option ℚ)) :
    lastNonNaN l = (l.filterMap id).getLast? := by
  induction l with
  | nil => rfl
  | cons x xs ih =>
    cases x with
    | none =>
      have hfm : List.filterMap id (none :: xs) = List.filterMap id xs := rfl
      rw [hfm]
      simp only [lastNonNaN, ih]
      cases (xs.filterMap id).getLast? <;> rfl
    | some a =>
      have hfm : List.filterMap id (some a :: xs) = a :: List.filterMap id xs := rfl
      rw [hfm]
      simp only [lastNonNaN, ih]
      cases h : xs.filterMap id with
      | nil => simp [h]
      | cons b l' =>
        rw [List.getLast?_cons_cons]
        cases h2 : (b :: l').getLast? with
        | none => exact absurd (List.getLast?_eq_none_iff.mp h2) (by simp)
        | some v => rfl

/-- The fast trend step always casts exactly one vote. -/
theorem trend_votes_15m_sum (i : CompleteIndicators) (s : ℕ × ℕ) :
    (trend_votes_15m i s).1 + (trend_votes_15m i s).2 = s.1 + s.2 + 1 := by
  unfold trend_votes_15m; split_ifs <;> omega

/-- The slow trend step always casts exactly two votes. -/
theorem trend_votes_1h_sum (i : CompleteIndicators) (s : ℕ × ℕ) :
    (trend_votes_1h i s).1 + (trend_votes_1h i s).2 = s.1 + s.2 + 2 := by
  unfold trend_votes_1h; split_ifs <;> omega

/-- The RSI step casts at most one vote. -/
theorem rsi_votes_sum (i : CompleteIndicators) (s : ℕ × ℕ) :
    s.1 + s.2 ≤ (rsi_votes i s).1 + (rsi_votes i s).2 ∧
      (rsi_votes i s).1 + (rsi_votes i s).2 ≤ s.1 + s.2 + 1 := by
  unfold rsi_votes; split_ifs <;> omega

/-- The MACD step casts at most one vote. -/
theorem macd_votes_sum (i : CompleteIndicators) (s : ℕ × ℕ) :
    s.1 + s.2 ≤ (macd_votes i s).1 + (macd_votes i s).2 ∧
      (macd_votes i s).1 + (macd_votes i s).2 ≤ s.1 + s.2 + 1 := by
  unfold macd_votes; split_ifs <;> omega

/-- The Bollinger-band step casts at most one vote. -/
theorem bb_votes_sum (i : CompleteIndicators) (p : ℚ) (s : ℕ × ℕ) :
    s.1 + s.2 ≤ (bb_votes i p s).1 + (bb_votes i p s).2 ∧
      (bb_votes i p s).1 + (bb_votes i p s).2 ≤ s.1 + s.2 + 1 := by
  unfold bb_votes; split_ifs <;> omega

/-- The vote tally is bounded: the two trend comparisons always cast
3 votes in total, and the five optional checks cast at most 5 more. -/
theorem tally_votes_bounds (i15 i1h : CompleteIndicators) (p : ℚ) :
    3 ≤ (tally_votes i15 i1h p).1 + (tally_votes i15 i1h p).2 ∧
      (tally_votes i15 i1h p).1 + (tally_votes i15 i1h p).2 ≤ 8 := by
  unfold tally_votes
  have h1 := trend_votes_15m_sum i15 ((0, 0) : ℕ × ℕ)
  have h2 := trend_votes_1h_sum i1h (trend_votes_15m i15 (0, 0))
  have h3 := rsi_votes_sum i15 (trend_votes_1h i1h (trend_votes_15m i15 (0, 0)))
  have h4 := rsi_votes_sum i1h
    (rsi_votes i15 (trend_votes_1h i1h (trend_votes_15m i15 (0, 0))))
  have h5 := macd_votes_sum i15
    (rsi_votes i1h (rsi_votes i15 (trend_votes_1h i1h (trend_votes_15m i15 (0, 0)))))
  have h6 := macd_votes_sum i1h
    (macd_votes i15
      (rsi_votes i1h (rsi_votes i15 (trend_votes_1h i1h (trend_votes_15m i15 (0, 0))))))
  have h7 := bb_votes_sum i15 p
    (macd_votes i1h
      (macd_votes i15
        (rsi_votes i1h (rsi_votes i15 (trend_votes_1h i1h (trend_votes_15m i15 (0, 0)))))))
  omega

/-- The confidence percentage is always between 0 and 100. -/
theorem confidence_of_bounds (b r : ℕ) :
    0 ≤ confidence_of b r ∧ confidence_of b r ≤ 100 := by
  simp only [confidence_of]
  split_ifs with h
  · norm_num
  · have hb0 : (0 : ℚ) ≤ (b : ℚ) := Nat.cast_nonneg b
    have hr0 : (0 : ℚ) ≤ (r : ℚ) := Nat.cast_nonneg r
    have htot : (0 : ℚ) < ((b + r : ℕ) : ℚ) := by
      have : 0 < b + r := Nat.pos_of_ne_zero h
      exact_mod_cast this
    constructor
    · positivity
    · have habs : ((b : ℤ) - (r : ℤ)).natAbs ≤ b + r := by omega
      have habsq : ((((b : ℤ) - (r : ℤ)).natAbs : ℕ) : ℚ) ≤ ((b + r : ℕ) : ℚ) := by
        exact_mod_cast habs
      rw [div_mul_eq_mul_div, div_le_iff₀ htot]
      nlinarith

/-- A tied tally has confidence 0. -/
theorem confidence_of_self (r : ℕ) : confidence_of r r = 0 := by
  simp only [confidence_of]
  split_ifs with h
  · rfl
  · simp

/-- `signal_core` written out with its `let`s substituted. -/
theorem signal_core_eq (i15 i1h : CompleteIndicators) (p : ℚ) :
    signal_core i15 i1h p =
      if (tally_votes i15 i1h p).1 > (tally_votes i15 i1h p).2 ∧
          confidence_of (tally_votes i15 i1h p).1 (tally_votes i15 i1h p).2 > 30 then
        ⟨"BUY",
          buy_strategy i15 i1h
            (confidence_of (tally_votes i15 i1h p).1 (tally_votes i15 i1h p).2),
          p, p + i15.atr * Config.ATR_TP_MULTIPLIER,
          p - i15.atr * Config.ATR_SL_MULTIPLIER⟩
      else if (tally_votes i15 i1h p).2 > (tally_votes i15 i1h p).1 ∧
          confidence_of (tally_votes i15 i1h p).1 (tally_votes i15 i1h p).2 > 30 then
        ⟨"SELL",
          sell_strategy i15 i1h
            (confidence_of (tally_votes i15 i1h p).1 (tally_votes i15 i1h p).2),
          p, p - i15.atr * Config.ATR_TP_MULTIPLIER,
          p + i15.atr * Config.ATR_SL_MULTIPLIER⟩
      else ⟨"HOLD", hold_strategy i15, p, p, p⟩ := rfl

/-- The decision stage only ever emits BUY, SELL or HOLD. -/
theorem signal_core_direction_cases (i15 i1h : CompleteIndicators) (p : ℚ) :
    (signal_core i15 i1h p).direction = "BUY" ∨
      (signal_core i15 i1h p).direction = "SELL" ∨
      (signal_core i15 i1h p).direction = "HOLD" := by
  rw [signal_core_eq]
  split_ifs <;> simp

/-- A snapshot dictionary is only produced from at least 50 candles. -/
theorem calculate_indicators_length (ta : Talib) (candles : List Candle)
    (h : (calculate_indicators ta candles).isSome) : 50 ≤ candles.length := by
  by_contra hlen
  rw [calculate_indicators, if_pos (by omega)] at h
  exact absurd h (by simp)

/-- The engine only ever emits one of the five direction strings. -/
theorem generate_signal_direction_cases (ta : Talib) (c15 c1h : List Candle)
    (q : Option ℚ) :
    (generate_signal ta c15 c1h q).direction = "BUY" ∨
      (generate_signal ta c15 c1h q).direction = "SELL" ∨
      (generate_signal ta c15 c1h q).direction = "HOLD" ∨
      (generate_signal ta c15 c1h q).direction = "ANALYZING" ∨
      (generate_signal ta c15 c1h q).direction = "ERROR" := by
  unfold generate_signal
  split
  · simp
  · split
    · simp
    · simp
    · split
      · simp
      · split
        · exact (signal_core_direction_cases _ _ _).imp id (fun h => h.imp id Or.inl)
        · simp

/-- On the all-bullish fixtures every check votes bullish: 8 votes to 0. -/
theorem bull_tally : tally_votes bull15 bull1h 50 = (8, 0) := by decide

/-- On the tie fixtures the tally is 2 votes against 2. -/
theorem tie_tally : tally_votes tie15 tie1h 50 = (2, 2) := by decide

/-- The all-bullish fixture clears the 30% confidence threshold. -/
theorem bull_confidence :
    confidence_of (tally_votes bull15 bull1h 50).1 (tally_votes bull15 bull1h 50).2 > 30 := by
  rw [bull_tally]
  norm_num [confidence_of]

/-- The all-bullish fixture triggers the BUY branch. -/
theorem bull_direction : (signal_core bull15 bull1h 50).direction = "BUY" := by
  rw [signal_core_eq, if_pos ⟨by rw [bull_tally]; decide, bull_confidence⟩]

/-! ### Claim theorems -/

/-- C1: whenever the tallied bullish votes exceed the bearish votes and
the confidence exceeds 30, the engine's decision stage returns direction
BUY with entry equal to the current price, stop-loss at price minus the
fast-timeframe ATR times 0.8, and take-profit at price plus that ATR
times 1.2 = 0.8 × 1.5. -/
theorem C1_buy_branch (i15 i1h : CompleteIndicators) (p : ℚ)
    (hb : (tally_votes i15 i1h p).1 > (tally_votes i15 i1h p).2)
    (hc : confidence_of (tally_votes i15 i1h p).1 (tally_votes i15 i1h p).2 > 30) :
    (signal_core i15 i1h p).direction = "BUY" ∧
      (signal_core i15 i1h p).entry = p ∧
      (signal_core i15 i1h p).sl_price = p - i15.atr * (8/10) ∧
      (signal_core i15 i1h p).tp_price = p + i15.atr * (8/10 * (15/10)) := by
  rw [signal_core_eq, if_pos ⟨hb, hc⟩]
  refine ⟨rfl, rfl, ?_, ?_⟩ <;>
    norm_num [Config.ATR_TP_MULTIPLIER, Config.ATR_SL_MULTIPLIER,
      Config.RISK_REWARD_RATIO]

/-- C1 witness: the all-bullish fixtures at price 50 take the BUY branch
with stop 50 − 1 × 0.8 and target 50 + 1 × 1.2. -/
theorem C1_buy_branch_witness :
    (signal_core bull15 bull1h 50).direction = "BUY" ∧
      (signal_core bull15 bull1h 50).entry = 50 ∧
      (signal_core bull15 bull1h 50).sl_price = 50 - bull15.atr * (8/10) ∧
      (signal_core bull15 bull1h 50).tp_price = 50 + bull15.atr * (8/10 * (15/10)) :=
  C1_buy_branch bull15 bull1h 50 (by rw [bull_tally]; decide) bull_confidence

/-- C2: the engine's confidence is the vote-share formula
|bullish − bearish| / (bullish + bearish) × 100 (0 when the total is 0),
always lies in [0, 100], and on a tied tally it is 0 and the decision
direction is neither BUY nor SELL. -/
theorem C2_confidence_bounds_tie (i15 i1h : CompleteIndicators) (p : ℚ) :
    (0 ≤ confidence_of (tally_votes i15 i1h p).1 (tally_votes i15 i1h p).2 ∧
      confidence_of (tally_votes i15 i1h p).1 (tally_votes i15 i1h p).2 ≤ 100) ∧
    ((tally_votes i15 i1h p).1 + (tally_votes i15 i1h p).2 ≠ 0 →
      confidence_of (tally_votes i15 i1h p).1 (tally_votes i15 i1h p).2 =
        |((tally_votes i15 i1h p).1 : ℚ) - ((tally_votes i15 i1h p).2 : ℚ)| /
          (((tally_votes i15 i1h p).1 : ℚ) + ((tally_votes i15 i1h p).2 : ℚ)) * 100) ∧
    ((tally_votes i15 i1h p).1 = (tally_votes i15 i1h p).2 →
      confidence_of (tally_votes i15 i1h p).1 (tally_votes i15 i1h p).2 = 0 ∧
        (signal_core i15 i1h p).direction ≠ "BUY" ∧
        (signal_core i15 i1h p).direction ≠ "SELL") := by
  refine ⟨confidence_of_bounds _ _, ?_, ?_⟩
  · intro h
    simp only [confidence_of]
    rw [if_neg h, Int.cast_natAbs]
    push_cast
    rfl
  · intro h
    refine ⟨by rw [h]; exact confidence_of_self _, ?_, ?_⟩ <;>
    · rw [signal_core_eq, if_neg (fun hc => absurd hc.1 (by omega)),
        if_neg (fun hc => absurd hc.1 (by omega))]
      simp

/-- C2 witness: on the tie fixtures (2 votes against 2) the confidence
is 0 and the direction is neither BUY nor SELL. -/
theorem C2_confidence_bounds_tie_witness :
    confidence_of (tally_votes tie15 tie1h 50).1 (tally_votes tie15 tie1h 50).2 = 0 ∧
      (signal_core tie15 tie1h 50).direction ≠ "BUY" ∧
      (signal_core tie15 tie1h 50).direction ≠ "SELL" :=
  (C2_confidence_bounds_tie tie15 tie1h 50).2.2 (by rw [tie_tally])

/-- C3: for any candle sequence shorter than 50 entries the indicator
calculator returns `none` for the whole snapshot, whatever the TA-Lib
routines would compute. -/
theorem C3_short_history (ta : Talib) (candles : List Candle)
    (h : candles.length < 50) : calculate_indicators ta candles = none := by
  rw [calculate_indicators, if_pos h]

/-- C3 witness: ten candles are fewer than 50 and yield `none`. -/
theorem C3_short_history_witness :
    candles10.length < 50 ∧ calculate_indicators trivialTalib candles10 = none :=
  ⟨by decide, C3_short_history trivialTalib candles10 (by decide)⟩

/-- C4: the last-valid-value lookup returns the mathematically last
defined (non-NaN) entry of the series — the last element of the sublist
of defined values — returns `none` exactly when the series is absent,
empty, or all-NaN, and any number it returns is a defined entry of the
series (never a NaN placeholder). -/
theorem C4_last_valid_lookup (arr : List (Option ℚ)) :
    last_valid_value (some arr) = (arr.filterMap id).getLast? ∧
      last_valid_value (none : Option (List (Option ℚ))) = none ∧
      (last_valid_value (some arr) = none ↔ arr.filterMap id = []) ∧
      (∀ v : ℚ, last_valid_value (some arr) = some v → some v ∈ arr) := by
  have he : last_valid_value (some arr) = (arr.filterMap id).getLast? :=
    lastNonNaN_eq_getLast arr
  refine ⟨he, rfl, ?_, ?_⟩
  · rw [he]
    exact List.getLast?_eq_none_iff
  · intro v hv
    rw [he] at hv
    have hmem : v ∈ arr.filterMap id := List.mem_of_getLast?_eq_some hv
    rcases List.mem_filterMap.mp hmem with ⟨a, ha, hid⟩
    cases a with
    | none => cases hid
    | some b =>
      have hb : b = v := Option.some.inj hid
      rw [hb] at ha
      exact ha

/-- C4 witness: on the series [NaN, 1, NaN] the lookup returns 1, which
is a defined entry of the series. -/
theorem C4_last_valid_lookup_witness :
    some (1 : ℚ) ∈ ([none, some (1 : ℚ), none] : List (Option ℚ)) :=
  (C4_last_valid_lookup [none, some 1, none]).2.2.2 1 (by decide)

/-- C5 counterexample: with ten candles per timeframe (a non-empty fetch
result that is too short for indicators) and an unobtainable current
price, the engine returns ANALYZING, not ERROR: the "no price → ERROR"
half of the claim fails because the insufficient-history guard runs
before the price is ever fetched. -/
theorem C5_counterexample :
    (generate_signal trivialTalib candles10 candles10 none).direction = "ANALYZING" ∧
      (generate_signal trivialTalib candles10 candles10 none).direction ≠ "ERROR" := by
  decide

/-- C5 (amended): if either candle fetch returns no candles the engine
returns ERROR with entry, take-profit and stop-loss all 0; if both
snapshot dictionaries were computed and the current price is
unobtainable the engine likewise returns ERROR with all prices 0; and
every outcome is encoded in the returned direction field (the engine is
a total function into the five direction strings). -/
theorem C5_error_paths (ta : Talib) (c15 c1h : List Candle) (p : Option ℚ) :
    ((c15 = [] ∨ c1h = []) →
      generate_signal ta c15 c1h p =
        ⟨"ERROR", "Failed to fetch market data", 0, 0, 0⟩) ∧
    ((calculate_indicators ta c15).isSome → (calculate_indicators ta c1h).isSome →
      generate_signal ta c15 c1h none =
        ⟨"ERROR", "Failed to fetch current price", 0, 0, 0⟩) ∧
    ((generate_signal ta c15 c1h p).direction = "BUY" ∨
      (generate_signal ta c15 c1h p).direction = "SELL" ∨
      (generate_signal ta c15 c1h p).direction = "HOLD" ∨
      (generate_signal ta c15 c1h p).direction = "ANALYZING" ∨
      (generate_signal ta c15 c1h p).direction = "ERROR") := by
  refine ⟨?_, ?_, generate_signal_direction_cases ta c15 c1h p⟩
  · intro h
    rcases h with h | h <;> subst h <;> simp [generate_signal]
  · intro h15 h1h
    have l15 := calculate_indicators_length ta c15 h15
    have l1h := calculate_indicators_length ta c1h h1h
    have e15 : c15.isEmpty = false := by
      rw [List.isEmpty_eq_false]
      intro hnil
      rw [hnil] at l15
      simp at l15
    have e1h : c1h.isEmpty = false := by
      rw [List.isEmpty_eq_false]
      intro hnil
      rw [hnil] at l1h
      simp at l1h
    obtain ⟨d15, hd15⟩ := Option.isSome_iff_exists.mp h15
    obtain ⟨d1h, hd1h⟩ := Option.isSome_iff_exists.mp h1h
    unfold generate_signal
    simp [e15, e1h, hd15, hd1h]

/-- C5 witness: empty fetches yield the data ERROR; fifty flat candles
with an unobtainable price yield the price ERROR. -/
theorem C5_error_paths_witness :
    generate_signal trivialTalib [] [] none =
        ⟨"ERROR", "Failed to fetch market data", 0, 0, 0⟩ ∧
      generate_signal trivialTalib candles50 candles50 none =
        ⟨"ERROR", "Failed to fetch current price", 0, 0, 0⟩ :=
  ⟨(C5_error_paths trivialTalib [] [] none).1 (Or.inl rfl),
   (C5_error_paths trivialTalib candles50 candles50 none).2.1 (by decide) (by decide)⟩

/-- C6 counterexample: with fifty candles per timeframe whose indicator
series never stabilize (every series is all-NaN, so the snapshot
dictionaries exist but every indicator value is `None`) and an
unobtainable current price, the engine returns ERROR, not ANALYZING:
the price guard runs before the `None`-value guard. -/
theorem C6_counterexample :
    ((calculate_indicators trivialTalib candles50).map Indicators.ema_fast) =
        some none ∧
      (generate_signal trivialTalib candles50 candles50 none).direction = "ERROR" ∧
      (generate_signal trivialTalib candles50 candles50 none).direction ≠ "ANALYZING" := by
  decide

/-- C6 (amended): if both fetches return candles and either snapshot is
`None` (fewer than 50 candles), the engine returns ANALYZING, distinct
from ERROR; and if both snapshot dictionaries exist, the current price
is available, and either dictionary still holds a `None` value, the
engine likewise returns ANALYZING.  (When the price is also
unobtainable, the `None`-value case yields ERROR instead.) -/
theorem C6_analyzing_paths (ta : Talib) (c15 c1h : List Candle) (p : ℚ) (q : Option ℚ) :
    (c15 ≠ [] → c1h ≠ [] →
      (calculate_indicators ta c15 = none ∨ calculate_indicators ta c1h = none) →
      (generate_signal ta c15 c1h q).direction = "ANALYZING" ∧
        (generate_signal ta c15 c1h q).direction ≠ "ERROR") ∧
    (∀ d15 d1h : Indicators, calculate_indicators ta c15 = some d15 →
      calculate_indicators ta c1h = some d1h →
      (complete_snapshot d15 = none ∨ complete_snapshot d1h = none) →
      (generate_signal ta c15 c1h (some p)).direction = "ANALYZING" ∧
        (generate_signal ta c15 c1h (some p)).direction ≠ "ERROR") := by
  constructor
  · intro h15 h1h hor
    have e15 : c15.isEmpty = false := by rw [List.isEmpty_eq_false]; exact h15
    have e1h : c1h.isEmpty = false := by rw [List.isEmpty_eq_false]; exact h1h
    rcases hor with h | h
    · unfold generate_signal
      simp [e15, e1h, h]
    · cases hc : calculate_indicators ta c15 with
      | none =>
        unfold generate_signal
        simp [e15, e1h, hc]
      | some d =>
        unfold generate_signal
        simp [e15, e1h, hc, h]
  · intro d15 d1h hd15 hd1h hor
    have h15s : (calculate_indicators ta c15).isSome := by rw [hd15]; rfl
    have h1hs : (calculate_indicators ta c1h).isSome := by rw [hd1h]; rfl
    have l15 := calculate_indicators_length ta c15 h15s
    have l1h := calculate_indicators_length ta c1h h1hs
    have e15 : c15.isEmpty = false := by
      rw [List.isEmpty_eq_false]
      intro hnil
      rw [hnil] at l15
      simp at l15
    have e1h : c1h.isEmpty = false := by
      rw [List.isEmpty_eq_false]
      intro hnil
      rw [hnil] at l1h
      simp at l1h
    rcases hor with h | h
    · unfold generate_signal
      simp [e15, e1h, hd15, hd1h, h]
    · cases hcs : complete_snapshot d15 with
      | none =>
        unfold generate_signal
        simp [e15, e1h, hd15, hd1h, hcs]
      | some cc =>
        unfold generate_signal
        simp [e15, e1h, hd15, hd1h, hcs, h]

/-- C6 witness: ten candles (non-empty, below the minimum) yield
ANALYZING whatever the price fetch; fifty flat candles with all-NaN
series and an available price also yield ANALYZING. -/
theorem C6_analyzing_paths_witness :
    ((generate_signal trivialTalib candles10 candles10 (some 1)).direction =
        "ANALYZING" ∧
      (generate_signal trivialTalib candles10 candles10 (some 1)).direction ≠
        "ERROR") ∧
    ((generate_signal trivialTalib candles50 candles50 (some 1)).direction =
        "ANALYZING" ∧
      (generate_signal trivialTalib candles50 candles50 (some 1)).direction ≠
        "ERROR") := by
  have h1 := (C6_analyzing_paths trivialTalib candles10 candles10 1 (some 1)).1
    (by decide) (by decide) (Or.inl (by decide))
  have h2 := (C6_analyzing_paths trivialTalib candles50 candles50 1 (some 1)).2
    (Indicators.mk none none none none none none none none none none (some 1))
    (Indicators.mk none none none none none none none none none none (some 1))
    (by decide) (by decide) (Or.inl (by decide))
  exact ⟨h1, h2⟩

/-- C7: when neither the BUY condition (bullish majority with confidence
over 30) nor the SELL condition holds, the decision stage returns HOLD
with entry, take-profit and stop-loss all equal to the current price. -/
theorem C7_hold_branch (i15 i1h : CompleteIndicators) (p : ℚ)
    (hb : ¬((tally_votes i15 i1h p).1 > (tally_votes i15 i1h p).2 ∧
      confidence_of (tally_votes i15 i1h p).1 (tally_votes i15 i1h p).2 > 30))
    (hs : ¬((tally_votes i15 i1h p).2 > (tally_votes i15 i1h p).1 ∧
      confidence_of (tally_votes i15 i1h p).1 (tally_votes i15 i1h p).2 > 30)) :
    (signal_core i15 i1h p).direction = "HOLD" ∧
      (signal_core i15 i1h p).entry = p ∧
      (signal_core i15 i1h p).tp_price = p ∧
      (signal_core i15 i1h p).sl_price = p := by
  rw [signal_core_eq, if_neg hb, if_neg hs]
  exact ⟨rfl, rfl, rfl, rfl⟩

/-- C7 witness: on the tied fixtures neither directional condition
holds, so the decision is HOLD at the current price 50. -/
theorem C7_hold_branch_witness :
    (signal_core tie15 tie1h 50).direction = "HOLD" ∧
      (signal_core tie15 tie1h 50).entry = 50 ∧
      (signal_core tie15 tie1h 50).tp_price = 50 ∧
      (signal_core tie15 tie1h 50).sl_price = 50 :=
  C7_hold_branch tie15 tie1h 50
    (fun hc => absurd hc.1 (by rw [tie_tally]; decide))
    (fun hc => absurd hc.1 (by rw [tie_tally]; decide))

/-- C8: whenever the fast-timeframe ATR is strictly positive, a BUY
decision has stop-loss < entry < take-profit and a SELL decision has
take-profit < entry < stop-loss. -/
theorem C8_risk_ordering (i15 i1h : CompleteIndicators) (p : ℚ)
    (h : 0 < i15.atr) :
    ((signal_core i15 i1h p).direction = "BUY" →
      (signal_core i15 i1h p).sl_price < (signal_core i15 i1h p).entry ∧
        (signal_core i15 i1h p).entry < (signal_core i15 i1h p).tp_price) ∧
    ((signal_core i15 i1h p).direction = "SELL" →
      (signal_core i15 i1h p).tp_price < (signal_core i15 i1h p).entry ∧
        (signal_core i15 i1h p).entry < (signal_core i15 i1h p).sl_price) := by
  have hsl : 0 < i15.atr * Config.ATR_SL_MULTIPLIER := by
    have hm : (0 : ℚ) < Config.ATR_SL_MULTIPLIER := by
      norm_num [Config.ATR_SL_MULTIPLIER]
    positivity
  have htp : 0 < i15.atr * Config.ATR_TP_MULTIPLIER := by
    have hm : (0 : ℚ) < Config.ATR_TP_MULTIPLIER := by
      norm_num [Config.ATR_TP_MULTIPLIER, Config.ATR_SL_MULTIPLIER,
        Config.RISK_REWARD_RATIO]
    positivity
  rw [signal_core_eq]
  split_ifs
  · exact ⟨fun _ => ⟨by dsimp only; linarith, by dsimp only; linarith⟩,
      fun hd => absurd hd (by simp)⟩
  · exact ⟨fun hd => absurd hd (by simp),
      fun _ => ⟨by dsimp only; linarith, by dsimp only; linarith⟩⟩
  · exact ⟨fun hd => absurd hd (by simp), fun hd => absurd hd (by simp)⟩

/-- C8 witness: on the all-bullish fixtures with ATR 1 the BUY decision
has stop 49.2 < entry 50 < target 51.2. -/
theorem C8_risk_ordering_witness :
    (signal_core bull15 bull1h 50).sl_price < (signal_core bull15 bull1h 50).entry ∧
      (signal_core bull15 bull1h 50).entry < (signal_core bull15 bull1h 50).tp_price :=
  (C8_risk_ordering bull15 bull1h 50 (by decide)).1 bull_direction

/-- C9: the voting-and-decision stage is a pure function of the two
snapshots and the price: two invocations on identical inputs produce
identical tallies, identical confidence and identical decisions, with
no influence from prior calls (there is no other argument to depend
on). -/
theorem C9_deterministic (i15 i1h i15b i1hb : CompleteIndicators) (p pb : ℚ)
    (h15 : i15 = i15b) (h1h : i1h = i1hb) (hp : p = pb) :
    tally_votes i15 i1h p = tally_votes i15b i1hb pb ∧
      confidence_of (tally_votes i15 i1h p).1 (tally_votes i15 i1h p).2 =
        confidence_of (tally_votes i15b i1hb pb).1 (tally_votes i15b i1hb pb).2 ∧
      signal_core i15 i1h p = signal_core i15b i1hb pb := by
  subst h15
  subst h1h
  subst hp
  exact ⟨rfl, rfl, rfl⟩

/-- C9 witness: re-invoking on the tied fixtures reproduces the same
tally, confidence and decision. -/
theorem C9_deterministic_witness :
    tally_votes tie15 tie1h 50 = tally_votes tie15 tie1h 50 ∧
      confidence_of (tally_votes tie15 tie1h 50).1 (tally_votes tie15 tie1h 50).2 =
        confidence_of (tally_votes tie15 tie1h 50).1 (tally_votes tie15 tie1h 50).2 ∧
      signal_core tie15 tie1h 50 = signal_core tie15 tie1h 50 :=
  C9_deterministic tie15 tie1h tie15 tie1h 50 50 rfl rfl rfl

/-- C10: the trend step casts exactly 3 votes (1 fast, 2 slow, EMA
equality counting as bearish), so the vote total always lies in [3, 8];
in particular the zero-total branch of the confidence formula is
unreachable and the division is over a nonzero denominator. -/
theorem C10_vote_totals (i15 i1h : CompleteIndicators) (p : ℚ) :
    3 ≤ (tally_votes i15 i1h p).1 + (tally_votes i15 i1h p).2 ∧
      (tally_votes i15 i1h p).1 + (tally_votes i15 i1h p).2 ≤ 8 ∧
      confidence_of (tally_votes i15 i1h p).1 (tally_votes i15 i1h p).2 =
        |((tally_votes i15 i1h p).1 : ℚ) - ((tally_votes i15 i1h p).2 : ℚ)| /
          (((tally_votes i15 i1h p).1 : ℚ) + ((tally_votes i15 i1h p).2 : ℚ)) * 100 := by
  obtain ⟨h3, h8⟩ := tally_votes_bounds i15 i1h p
  refine ⟨h3, h8, ?_⟩
  simp only [confidence_of]
  rw [if_neg (by omega), Int.cast_natAbs]
  push_cast
  rfl

end SabeloRobot
